import Mathlib

/-!
Verification of the swap-chain / device / frame-synchronization core of the
donut_examples repository (tinyrhi library plus the basic_triangle examples).

The repository contains two near-identical revisions of the swap-chain code:
  * `src/tinyrhi/src/vulkan/vulkan-swapchain.cpp` (`VulkanSwapChain::create`,
    `VulkanSwapChain::initSurface`) and
    `src/tinyrhi/src/vulkan/vulkan-device.cpp` — earlier snapshots, and
  * `src/examples/basic_triangle_tinyrhi/basic_triangle_tinyrhi.cpp`
    (class `VulkanSwapChain` / `DeviceManager_Vulkan`), identical to the
    `DeviceManager_Vulkan` revision among the unnamed sources — the later
    snapshot.
Definitions below carry a `_tinyrhi` suffix for the former and a `_bt`
("basic triangle") suffix for the latter whenever the two revisions differ.

Vulkan enumeration constants are embedded with their numeric values from
`vulkan_core.h`; the numeric value of `VK_PRESENT_MODE_IMMEDIATE_KHR` (zero)
is load-bearing for the behaviour of the present-mode loop in the tinyrhi
revision.

The file is organized as definitions first, then the lemmas and theorems
about them.
-/

namespace DonutExamples

/-! ## Definitions -/

/-! ### Vulkan constants (values from vulkan_core.h) -/

def VK_PRESENT_MODE_IMMEDIATE_KHR : Nat := 0
def VK_PRESENT_MODE_MAILBOX_KHR : Nat := 1
def VK_PRESENT_MODE_FIFO_KHR : Nat := 2
def VK_PRESENT_MODE_FIFO_RELAXED_KHR : Nat := 3

def VK_QUEUE_GRAPHICS_BIT : Nat := 1
def VK_QUEUE_COMPUTE_BIT : Nat := 2
def VK_QUEUE_TRANSFER_BIT : Nat := 4

def VK_FENCE_CREATE_SIGNALED_BIT : Nat := 1

/-! ### Present-mode selection

`VulkanSwapChain::create`, tinyrhi revision
(src/tinyrhi/src/vulkan/vulkan-swapchain.cpp, lines 278-293):

```
VkPresentModeKHR swapchainPresentMode = VK_PRESENT_MODE_FIFO_KHR;
if (!vsync) {
    for (size_t i = 0; i < presentModeCount; ++i) {
        if (presentModes[i] == VK_PRESENT_MODE_MAILBOX_KHR) {
            swapchainPresentMode = VK_PRESENT_MODE_MAILBOX_KHR;
            break;
        }
        if (presentModes[i] = VK_PRESENT_MODE_IMMEDIATE_KHR)   // assignment, not comparison
        {
            swapchainPresentMode = VK_PRESENT_MODE_IMMEDIATE_KHR;
        }
    }
}
```

The second `if` assigns `VK_PRESENT_MODE_IMMEDIATE_KHR` (numerically 0) to
`presentModes[i]` and then tests the assigned value, which is 0, i.e. false;
the `swapchainPresentMode = VK_PRESENT_MODE_IMMEDIATE_KHR` body is dead code.
The write to `presentModes[i]` happens after the MAILBOX comparison at the
same index and only at indices the loop has already passed, so it cannot
affect later MAILBOX comparisons.  The loop below reproduces this: the
IMMEDIATE branch is guarded by the truth value of the assigned constant. -/

def selectPresentModeLoop_tinyrhi : List Nat → Nat → Nat
  | [], acc => acc
  | m :: rest, acc =>
    if m = VK_PRESENT_MODE_MAILBOX_KHR then VK_PRESENT_MODE_MAILBOX_KHR
    else if VK_PRESENT_MODE_IMMEDIATE_KHR ≠ 0 then
      selectPresentModeLoop_tinyrhi rest VK_PRESENT_MODE_IMMEDIATE_KHR
    else
      selectPresentModeLoop_tinyrhi rest acc

def selectPresentMode_tinyrhi (presentModes : List Nat) (vsync : Bool) : Nat :=
  if vsync then VK_PRESENT_MODE_FIFO_KHR
  else selectPresentModeLoop_tinyrhi presentModes VK_PRESENT_MODE_FIFO_KHR

/-- `VulkanSwapChain::create`, basic_triangle revision
(src/examples/basic_triangle_tinyrhi/basic_triangle_tinyrhi.cpp, lines
228-246): same loop but with a genuine `==` comparison for IMMEDIATE, whose
branch updates the selection without breaking the loop. -/
def selectPresentModeLoop_bt : List Nat → Nat → Nat
  | [], acc => acc
  | m :: rest, acc =>
    if m = VK_PRESENT_MODE_MAILBOX_KHR then VK_PRESENT_MODE_MAILBOX_KHR
    else if m = VK_PRESENT_MODE_IMMEDIATE_KHR then
      selectPresentModeLoop_bt rest VK_PRESENT_MODE_IMMEDIATE_KHR
    else
      selectPresentModeLoop_bt rest acc

def selectPresentMode_bt (presentModes : List Nat) (vsync : Bool) : Nat :=
  if vsync then VK_PRESENT_MODE_FIFO_KHR
  else selectPresentModeLoop_bt presentModes VK_PRESENT_MODE_FIFO_KHR

/-- Reference present-mode policy, per the specification: FIFO when vsync is
requested or neither MAILBOX nor IMMEDIATE is available; MAILBOX whenever
vsync is off and MAILBOX is available; IMMEDIATE only as the remaining
fallback. -/
def referencePresentMode (presentModes : List Nat) (vsync : Bool) : Nat :=
  if vsync then VK_PRESENT_MODE_FIFO_KHR
  else if VK_PRESENT_MODE_MAILBOX_KHR ∈ presentModes then VK_PRESENT_MODE_MAILBOX_KHR
  else if VK_PRESENT_MODE_IMMEDIATE_KHR ∈ presentModes then VK_PRESENT_MODE_IMMEDIATE_KHR
  else VK_PRESENT_MODE_FIFO_KHR

/-! ### Swap-chain image count -/

/-- Surface capability report, the fields of `VkSurfaceCapabilitiesKHR` that
`VulkanSwapChain::create` reads for extent and image-count resolution.  All
fields are uint32 values reported by the driver. -/
structure SurfaceCaps where
  minImageCount : Nat
  maxImageCount : Nat
  currentExtentWidth : Nat
  currentExtentHeight : Nat
deriving DecidableEq, Repr

/-- tinyrhi revision (vulkan-swapchain.cpp lines 295-297): requests
`minImageCount + 1` images with no clamping against `maxImageCount`. -/
def desiredImageCount_tinyrhi (caps : SurfaceCaps) : Nat :=
  caps.minImageCount + 1

/-- basic_triangle revision (basic_triangle_tinyrhi.cpp lines 248-253):
requests `minImageCount + 1`, clamped down to `maxImageCount` when the
maximum is nonzero (0 meaning unbounded). -/
def desiredImageCount_bt (caps : SurfaceCaps) : Nat :=
  let desired := caps.minImageCount + 1
  if caps.maxImageCount > 0 ∧ desired > caps.maxImageCount then caps.maxImageCount
  else desired

/-- Reference image-count rule, per the specification. -/
def referenceImageCount (caps : SurfaceCaps) : Nat :=
  if caps.maxImageCount ≠ 0 then min (caps.minImageCount + 1) caps.maxImageCount
  else caps.minImageCount + 1

/-! ### Swap-chain (re)creation: teardown ordering

Both revisions of `VulkanSwapChain::create` share this tail
(basic_triangle_tinyrhi.cpp lines 317-360; vulkan-swapchain.cpp lines
354-397): create the new chain handle passing the old one as
`oldSwapchain`; if the old handle is non-null, destroy each of the old
buffers' image views and then the old chain handle; then query the new
image list and create one view per new image.  The trace below records
these calls in program order.  `old` is the saved `oldSwapChain` handle
(`none` models `VK_NULL_HANDLE`), `oldImageCount` the `imageCount` at entry
(the old chain's image count), and `newImageCount` the count fetched from
the new chain. -/

inductive SwapEvent where
  | createSwapchain (newChain : Nat) (oldChain : Option Nat)
  | destroyImageView (i : Nat)
  | destroyOldSwapchain (oldChain : Nat)
  | getSwapchainImages
  | createImageView (i : Nat)
deriving DecidableEq, Repr

def createTrace (old : Option Nat) (oldImageCount : Nat)
    (newChain : Nat) (newImageCount : Nat) : List SwapEvent :=
  [SwapEvent.createSwapchain newChain old]
  ++ (match old with
      | some h => (List.range oldImageCount).map SwapEvent.destroyImageView
                    ++ [SwapEvent.destroyOldSwapchain h]
      | none => [])
  ++ [SwapEvent.getSwapchainImages]
  ++ (List.range newImageCount).map SwapEvent.createImageView

/-! ### Swap extent resolution

Both revisions of `VulkanSwapChain::create` resolve the extent identically
(basic_triangle_tinyrhi.cpp lines 208-222; vulkan-swapchain.cpp lines
258-272): when `surfCaps.currentExtent.width == (uint32_t)-1` the caller's
`*width`/`*height` are used and left unchanged; otherwise the extent is
`surfCaps.currentExtent` and the output parameters are overwritten. -/

/-- The `(uint32_t)-1` sentinel, all 32 bits set. -/
def extentSentinel : Nat := 4294967295

structure Extent2D where
  width : Nat
  height : Nat
deriving DecidableEq, Repr

/-- Extent resolution step of `VulkanSwapChain::create`: returns the
resolved `swapchainExtent` together with the final values of the `*width`
and `*height` output parameters. -/
def resolveExtent (currentExtent : Extent2D) (width height : Nat) :
    Extent2D × Nat × Nat :=
  if currentExtent.width = extentSentinel then
    (⟨width, height⟩, width, height)
  else
    (currentExtent, currentExtent.width, currentExtent.height)

/-! ### Frame loop and synchronization (`DeviceManager_Vulkan`)

`MAX_CONCURRENT_FRAMES` is 2.  `createSynchronizationPrimitives` creates,
for each slot `i < MAX_CONCURRENT_FRAMES`, two semaphores and the fence
`waitFences[i]` with `fenceCI.flags = VK_FENCE_CREATE_SIGNALED_BIT`.
`render` performs, in program order on slot `currentFrame`:
`vkWaitForFences` (line 841), `vkAcquireNextImageKHR` (line 847),
`vkResetFences` (line 872), `vkQueueSubmit` passing
`waitFences[currentFrame]` (line 960), `vkQueuePresentKHR` (line 974).
The member `currentFrame` is initialized to 0 (line 1839) and the body of
`render` contains no assignment to it, so every iteration of the loop uses
the same slot. -/

def MAX_CONCURRENT_FRAMES : Nat := 2

/-- `fenceCI.flags` in `createSynchronizationPrimitives`. -/
def fenceCreateFlags : Nat := VK_FENCE_CREATE_SIGNALED_BIT

/-- Signaled state of the per-slot fences right after
`createSynchronizationPrimitives`: a fence starts signaled exactly when the
signaled bit is set in its creation flags. -/
def initialFences : List Bool :=
  (List.range MAX_CONCURRENT_FRAMES).map
    (fun _ => fenceCreateFlags &&& VK_FENCE_CREATE_SIGNALED_BIT != 0)

inductive FrameOp where
  | waitFence (slot : Nat)
  | acquireImage (slot : Nat)
  | resetFence (slot : Nat)
  | submit (slot : Nat)
  | present (slot : Nat)
deriving DecidableEq, Repr

/-- The synchronization-relevant calls of one `render` invocation, in
program order. -/
def renderTrace (currentFrame : Nat) : List FrameOp :=
  [FrameOp.waitFence currentFrame,
   FrameOp.acquireImage currentFrame,
   FrameOp.resetFence currentFrame,
   FrameOp.submit currentFrame,
   FrameOp.present currentFrame]

/-- Value of `currentFrame` after one `render` call: the body never writes
the member, so it is unchanged. -/
def renderNextFrame (currentFrame : Nat) : Nat :=
  currentFrame

/-- The slot-advance rule the specification states:
`(slotIndex + 1) mod K` after a successful submit. -/
def referenceNextFrame (currentFrame : Nat) : Nat :=
  (currentFrame + 1) % MAX_CONCURRENT_FRAMES

/-- Slot indices used by `n` successive frames when the per-frame update of
`currentFrame` is `step`. -/
def slotsVisited (step : Nat → Nat) : Nat → Nat → List Nat
  | _, 0 => []
  | cf, n + 1 => cf :: slotsVisited step (step cf) n

/-- Concatenated call trace of `n` frames of the loop, starting from the
given `currentFrame` and updating it with `renderNextFrame` after each
frame. -/
def frameLoopTrace : Nat → Nat → List FrameOp
  | _, 0 => []
  | cf, n + 1 => renderTrace cf ++ frameLoopTrace (renderNextFrame cf) n

/-- Fence-state semantics against a backend that signals submitted work
immediately: a host wait on an unsignaled fence deadlocks (`none`), a reset
unsignals, the fence passed to the submit is signaled on completion. -/
def runFenceOps : List FrameOp → List Bool → Option (List Bool)
  | [], fences => some fences
  | op :: rest, fences =>
    match op with
    | FrameOp.waitFence s =>
        if fences.getD s false then runFenceOps rest fences else none
    | FrameOp.acquireImage _ => runFenceOps rest fences
    | FrameOp.resetFence s => runFenceOps rest (fences.set s false)
    | FrameOp.submit s => runFenceOps rest (fences.set s true)
    | FrameOp.present _ => runFenceOps rest fences

/-! ### Queue-family resolution and logical-device queue setup

`VulkanDevice::getQueueFamilyIndex` (unnamed part_003 lines 199-236,
identically `DeviceManager_Vulkan::getQueueFamilyIndex` in part_006 lines
1198-1236).  A queue family is given by its `VkQueueFlags` bitmask, in
table order.  The C++ `throw std::runtime_error` on exhaustion is modelled
by `none`. -/

/-- First family advertising COMPUTE without GRAPHICS. -/
def dedicatedComputeIdx (table : List Nat) : Option Nat :=
  table.findIdx? (fun f =>
    (f &&& VK_QUEUE_COMPUTE_BIT != 0) && (f &&& VK_QUEUE_GRAPHICS_BIT == 0))

/-- First family advertising TRANSFER without GRAPHICS and without COMPUTE. -/
def dedicatedTransferIdx (table : List Nat) : Option Nat :=
  table.findIdx? (fun f =>
    (f &&& VK_QUEUE_TRANSFER_BIT != 0) && (f &&& VK_QUEUE_GRAPHICS_BIT == 0) &&
    (f &&& VK_QUEUE_COMPUTE_BIT == 0))

/-- First family whose flag set contains all requested flags. -/
def supersetIdx (table : List Nat) (queueFlags : Nat) : Option Nat :=
  table.findIdx? (fun f => f &&& queueFlags == queueFlags)

def getQueueFamilyIndex (table : List Nat) (queueFlags : Nat) : Option Nat :=
  match (if queueFlags &&& VK_QUEUE_COMPUTE_BIT = queueFlags then
           dedicatedComputeIdx table
         else none) with
  | some i => some i
  | none =>
    match (if queueFlags &&& VK_QUEUE_TRANSFER_BIT = queueFlags then
             dedicatedTransferIdx table
           else none) with
    | some i => some i
    | none => supersetIdx table queueFlags

/-- Reference tie-break order, per the specification: a compute-only
request prefers a COMPUTE-without-GRAPHICS family, a transfer-only request
prefers a TRANSFER-without-GRAPHICS-and-COMPUTE family, otherwise the first
superset family; no match is an error. -/
def referenceQueueFamilyIndex (table : List Nat) (queueFlags : Nat) : Option Nat :=
  if queueFlags = VK_QUEUE_COMPUTE_BIT then
    match dedicatedComputeIdx table with
    | some i => some i
    | none => supersetIdx table queueFlags
  else if queueFlags = VK_QUEUE_TRANSFER_BIT then
    match dedicatedTransferIdx table with
    | some i => some i
    | none => supersetIdx table queueFlags
  else supersetIdx table queueFlags

/-- One `VkDeviceQueueCreateInfo` as filled in by the device-creation code:
family index, `queueCount = 1`, and the pointed-to queue priority. -/
structure QueueCreateEntry where
  queueFamilyIndex : Nat
  queueCount : Nat
  priority : Rat
deriving DecidableEq, Repr

/-- `const float defaultQueuePriority(0.f)` (part_003 line 48, part_006
line 1096). -/
def defaultQueuePriority : Rat := 0

def mkQueueEntry (i : Nat) : QueueCreateEntry :=
  ⟨i, 1, defaultQueuePriority⟩

structure QueueFamilyIndices where
  graphics : Nat
  compute : Nat
  transfer : Nat
deriving DecidableEq, Repr

/-- Graphics block of `DeviceManager_Vulkan::createLogicalDevice`
(part_006 lines 1098-1112): if graphics is requested, resolve the family
and emit an entry; otherwise the graphics index defaults to 0 and nothing
is emitted. -/
def graphicsStage (table : List Nat) (requested : Nat) :
    Option (Nat × List QueueCreateEntry) :=
  if requested &&& VK_QUEUE_GRAPHICS_BIT ≠ 0 then
    (getQueueFamilyIndex table VK_QUEUE_GRAPHICS_BIT).map
      (fun g => (g, [mkQueueEntry g]))
  else some (0, [])

/-- Compute block (part_006 lines 1114-1133): if compute is requested,
resolve the family and emit an entry only when it differs from the
graphics index; otherwise reuse the graphics index. -/
def computeStage (table : List Nat) (requested g : Nat) :
    Option (Nat × List QueueCreateEntry) :=
  if requested &&& VK_QUEUE_COMPUTE_BIT ≠ 0 then
    (getQueueFamilyIndex table VK_QUEUE_COMPUTE_BIT).map
      (fun c => (c, if c ≠ g then [mkQueueEntry c] else []))
  else some (g, [])

/-- Transfer block (part_006 lines 1135-1154): if transfer is requested,
resolve the family and emit an entry only when it differs from both the
graphics and the compute index; otherwise reuse the graphics index. -/
def transferStage (table : List Nat) (requested g c : Nat) :
    Option (Nat × List QueueCreateEntry) :=
  if requested &&& VK_QUEUE_TRANSFER_BIT ≠ 0 then
    (getQueueFamilyIndex table VK_QUEUE_TRANSFER_BIT).map
      (fun t => (t, if t ≠ g ∧ t ≠ c then [mkQueueEntry t] else []))
  else some (g, [])

/-- Queue setup of `DeviceManager_Vulkan::createLogicalDevice` (part_006
lines 1092-1168): graphics, compute, transfer blocks in order; the
resulting `queueCreateInfos` vector is their concatenation. -/
def createLogicalDeviceQueues (table : List Nat) (requested : Nat) :
    Option (QueueFamilyIndices × List QueueCreateEntry) :=
  (graphicsStage table requested).bind fun ge =>
  (computeStage table requested ge.1).bind fun ce =>
  (transferStage table requested ge.1 ce.1).bind fun te =>
  some (⟨ge.1, ce.1, te.1⟩, ge.2 ++ ce.2 ++ te.2)

/-- Queue setup of the `VulkanDevice` constructor (part_003 lines 42-146):
`requestedQueueTypes` is hard-coded to graphics, compute and transfer, and
the compute and transfer blocks appear twice (lines 64-104 and again lines
106-146), each repetition re-resolving the index and re-emitting an entry
under the same conditions. -/
def vulkanDeviceQueues_part003 (table : List Nat) :
    Option (QueueFamilyIndices × List QueueCreateEntry) :=
  let requested := VK_QUEUE_GRAPHICS_BIT ||| VK_QUEUE_COMPUTE_BIT ||| VK_QUEUE_TRANSFER_BIT
  (graphicsStage table requested).bind fun ge =>
  (computeStage table requested ge.1).bind fun ce1 =>
  (transferStage table requested ge.1 ce1.1).bind fun te1 =>
  (computeStage table requested ge.1).bind fun ce2 =>
  (transferStage table requested ge.1 ce2.1).bind fun te2 =>
  some (⟨ge.1, ce2.1, te2.1⟩, ge.2 ++ ce1.2 ++ te1.2 ++ ce2.2 ++ te2.2)

/-- Deduplicated entry list determined by the resolved indices: one entry
for graphics, one for compute when distinct from graphics, one for
transfer when distinct from both. -/
def dedupEntries (idx : QueueFamilyIndices) : List QueueCreateEntry :=
  mkQueueEntry idx.graphics ::
    ((if idx.compute ≠ idx.graphics then [mkQueueEntry idx.compute] else []) ++
     (if idx.transfer ≠ idx.graphics ∧ idx.transfer ≠ idx.compute then
        [mkQueueEntry idx.transfer]
      else []))

/-! ### Device-extension check during logical-device creation

`VulkanDevice` constructor, part_003 lines 163-187: each requested device
extension missing from `supportedExtensions` produces a `std::cerr` warning;
the extension list is passed to `vkCreateDevice` unchanged and creation
proceeds; only a failing `vkCreateDevice` returns early, otherwise the
command pool is created. -/

inductive DevCreateEvent where
  | warnMissingExtension (ext : String)
  | createDevice
  | createCommandPool
deriving DecidableEq, Repr

/-- Call trace of the extension check and device creation.
`createDeviceSucceeds` abstracts the `vkCreateDevice` result. -/
def vulkanDeviceInitTrace (supported requested : List String)
    (createDeviceSucceeds : Bool) : List DevCreateEvent :=
  (requested.filterMap (fun ex =>
    if ex ∈ supported then none
    else some (DevCreateEvent.warnMissingExtension ex)))
  ++ [DevCreateEvent.createDevice]
  ++ (if createDeviceSucceeds then [DevCreateEvent.createCommandPool] else [])

/-! ### Surface initialisation (`VulkanSwapChain::initSurface`)

basic_triangle_tinyrhi.cpp lines 85-153 (identically part_006).  A queue
family is its flag bitmask together with the per-family result of
`vkGetPhysicalDeviceSurfaceSupportKHR`. -/

structure QueueFamily where
  queueFlags : Nat
  supportsPresent : Bool
deriving DecidableEq, Repr

/-- First loop of `initSurface` (lines 109-125): remembers the first
graphics family, and breaks with both indices set at the first graphics
family that also supports present. -/
def searchGraphicsPresent : List QueueFamily → Nat → Option Nat →
    Option Nat × Option Nat
  | [], _, g => (g, none)
  | f :: rest, i, g =>
    if f.queueFlags &&& VK_QUEUE_GRAPHICS_BIT ≠ 0 then
      if f.supportsPresent then (some i, some i)
      else
        searchGraphicsPresent rest (i + 1)
          (match g with
           | none => some i
           | some x => some x)
    else searchGraphicsPresent rest (i + 1) g

/-- Fallback loop of `initSurface` (lines 127-139).  The loop is a nested
duplicate whose inner `for` shadows the outer index, assigns
`presentQueueNodeIndex = i` with the inner `i` still 0 and breaks
immediately, never consulting `supportsPresent`; with a non-empty family
table it therefore always yields index 0. -/
def fallbackPresentIdx (families : List QueueFamily) : Option Nat :=
  match families with
  | [] => none
  | _ :: _ => some 0

inductive InitSurfaceResult where
  | ok (queueNodeIndex : Nat)
  | errNoQueue
  | errSeparateQueues
deriving DecidableEq, Repr

/-- `initSurface` queue selection (lines 105-153): run the combined
search, apply the fallback when no graphics family supports present, throw
`errNoQueue` when either index is still unset, throw `errSeparateQueues`
when the two indices differ, and otherwise record the graphics index as
`queueNodeIndex`. -/
def initSurface (families : List QueueFamily) : InitSurfaceResult :=
  let gp := searchGraphicsPresent families 0 none
  let p := match gp.2 with
           | some x => some x
           | none => fallbackPresentIdx families
  match gp.1, p with
  | none, _ => InitSurfaceResult.errNoQueue
  | _, none => InitSurfaceResult.errNoQueue
  | some gi, some pi =>
      if gi ≠ pi then InitSurfaceResult.errSeparateQueues
      else InitSurfaceResult.ok gi

/-! ## Lemmas and theorems -/

lemma selectPresentModeLoop_bt_eq (modes : List Nat) (acc : Nat) :
    selectPresentModeLoop_bt modes acc =
      if VK_PRESENT_MODE_MAILBOX_KHR ∈ modes then VK_PRESENT_MODE_MAILBOX_KHR
      else if VK_PRESENT_MODE_IMMEDIATE_KHR ∈ modes then VK_PRESENT_MODE_IMMEDIATE_KHR
      else acc := by
  induction modes generalizing acc with
  | nil => simp [selectPresentModeLoop_bt]
  | cons m rest ih =>
    by_cases hm : m = VK_PRESENT_MODE_MAILBOX_KHR
    · subst hm; simp [selectPresentModeLoop_bt]
    · by_cases hi : m = VK_PRESENT_MODE_IMMEDIATE_KHR
      · subst hi
        simp only [selectPresentModeLoop_bt, if_neg hm, if_pos rfl, ih,
          List.mem_cons]
        have hne : VK_PRESENT_MODE_MAILBOX_KHR ≠ VK_PRESENT_MODE_IMMEDIATE_KHR := by decide
        by_cases hmem : VK_PRESENT_MODE_MAILBOX_KHR ∈ rest
        · simp [hmem, hne]
        · simp [hmem, hne]
      · simp only [selectPresentModeLoop_bt, if_neg hm, if_neg hi, ih,
          List.mem_cons]
        have h1 : (VK_PRESENT_MODE_MAILBOX_KHR = m ∨ VK_PRESENT_MODE_MAILBOX_KHR ∈ rest)
            ↔ VK_PRESENT_MODE_MAILBOX_KHR ∈ rest := or_iff_right (fun h => hm h.symm)
        have h2 : (VK_PRESENT_MODE_IMMEDIATE_KHR = m ∨ VK_PRESENT_MODE_IMMEDIATE_KHR ∈ rest)
            ↔ VK_PRESENT_MODE_IMMEDIATE_KHR ∈ rest := or_iff_right (fun h => hi h.symm)
        rw [if_congr h1 rfl rfl, if_congr h2 rfl rfl]

/-- The basic_triangle revision of the present-mode loop implements the
reference policy on every input. -/
lemma selectPresentMode_bt_eq_reference (modes : List Nat) (vsync : Bool) :
    selectPresentMode_bt modes vsync = referencePresentMode modes vsync := by
  cases vsync with
  | true => rfl
  | false =>
    simp only [selectPresentMode_bt, referencePresentMode, Bool.false_eq_true,
      if_false]
    exact selectPresentModeLoop_bt_eq modes VK_PRESENT_MODE_FIFO_KHR

/-- In the tinyrhi revision the IMMEDIATE branch is dead: the loop returns
MAILBOX if present, otherwise the FIFO baseline, and never IMMEDIATE. -/
lemma selectPresentModeLoop_tinyrhi_eq (modes : List Nat) (acc : Nat) :
    selectPresentModeLoop_tinyrhi modes acc =
      if VK_PRESENT_MODE_MAILBOX_KHR ∈ modes then VK_PRESENT_MODE_MAILBOX_KHR else acc := by
  induction modes generalizing acc with
  | nil => simp [selectPresentModeLoop_tinyrhi]
  | cons m rest ih =>
    by_cases hm : m = VK_PRESENT_MODE_MAILBOX_KHR
    · subst hm; simp [selectPresentModeLoop_tinyrhi]
    · simp only [selectPresentModeLoop_tinyrhi, if_neg hm, List.mem_cons, ih]
      have : ¬ VK_PRESENT_MODE_IMMEDIATE_KHR ≠ 0 := by decide
      simp only [if_neg this, ih]
      have h1 : (VK_PRESENT_MODE_MAILBOX_KHR = m ∨ VK_PRESENT_MODE_MAILBOX_KHR ∈ rest)
          ↔ VK_PRESENT_MODE_MAILBOX_KHR ∈ rest := or_iff_right (fun h => hm h.symm)
      rw [if_congr h1 rfl rfl]

/-- C1 — the tinyrhi `VulkanSwapChain::create` never selects IMMEDIATE: with
vsync off and available modes FIFO and IMMEDIATE (MAILBOX absent) it selects
FIFO where the specified policy selects IMMEDIATE, because line 288 of
vulkan-swapchain.cpp assigns (`=`) instead of comparing (`==`) and the
assigned constant is numerically zero.  The co-located basic_triangle
revision of the same function implements the specified policy on every
input. -/
theorem present_mode_immediate_branch_dead :
    (∀ (modes : List Nat) (vsync : Bool),
      selectPresentMode_bt modes vsync = referencePresentMode modes vsync) ∧
    selectPresentMode_tinyrhi [VK_PRESENT_MODE_FIFO_KHR, VK_PRESENT_MODE_IMMEDIATE_KHR] false
      = VK_PRESENT_MODE_FIFO_KHR ∧
    referencePresentMode [VK_PRESENT_MODE_FIFO_KHR, VK_PRESENT_MODE_IMMEDIATE_KHR] false
      = VK_PRESENT_MODE_IMMEDIATE_KHR ∧
    VK_PRESENT_MODE_FIFO_KHR ≠ VK_PRESENT_MODE_IMMEDIATE_KHR := by
  refine ⟨selectPresentMode_bt_eq_reference, ?_, ?_, ?_⟩ <;> decide

/-- C2 — the basic_triangle revision resolves the image count exactly as the
specification states, but the tinyrhi revision of `VulkanSwapChain::create`
performs no clamping: with `minImageCount = 2, maxImageCount = 2` it
requests 3 images where the specification requires 2. -/
theorem image_count_clamp_missing_in_tinyrhi :
    (∀ caps : SurfaceCaps, desiredImageCount_bt caps = referenceImageCount caps) ∧
    desiredImageCount_tinyrhi ⟨2, 2, 640, 480⟩ = 3 ∧
    referenceImageCount ⟨2, 2, 640, 480⟩ = 2 := by
  refine ⟨?_, by decide, by decide⟩
  intro caps
  simp only [desiredImageCount_bt, referenceImageCount]
  by_cases hmax : caps.maxImageCount = 0
  · simp [hmax]
  · have hpos : caps.maxImageCount > 0 := Nat.pos_of_ne_zero hmax
    by_cases hgt : caps.minImageCount + 1 > caps.maxImageCount
    · simp [hmax, hpos, hgt, Nat.min_eq_right (Nat.le_of_lt hgt)]
    · have hle : caps.minImageCount + 1 ≤ caps.maxImageCount := Nat.le_of_not_lt hgt
      simp [hmax, hpos, hgt, Nat.min_eq_left hle]

/-- C3 — on recreation (old handle non-null) every old image view is
destroyed before the old chain handle, and both destructions come strictly
after the new chain handle is created (expressed as ordered subsequences of
the call trace); on first creation (old handle null) the trace contains no
destruction call at all. -/
theorem swapchain_teardown_ordering :
    (∀ (h oldCount newChain newCount k : Nat), k < oldCount →
      List.Sublist
        [SwapEvent.createSwapchain newChain (some h),
         SwapEvent.destroyImageView k,
         SwapEvent.destroyOldSwapchain h]
        (createTrace (some h) oldCount newChain newCount)) ∧
    (∀ (h oldCount newChain newCount : Nat),
      List.Sublist
        [SwapEvent.createSwapchain newChain (some h),
         SwapEvent.destroyOldSwapchain h]
        (createTrace (some h) oldCount newChain newCount)) ∧
    (∀ (oldCount newChain newCount : Nat) (e : SwapEvent),
      e ∈ createTrace none oldCount newChain newCount →
      (∀ k, e ≠ SwapEvent.destroyImageView k) ∧
      (∀ h, e ≠ SwapEvent.destroyOldSwapchain h)) := by
  refine ⟨?_, ?_, ?_⟩
  · intro h oldCount newChain newCount k hk
    simp only [createTrace, List.cons_append, List.nil_append]
    refine List.Sublist.cons₂ _ ?_
    have hmem : SwapEvent.destroyImageView k ∈
        (List.range oldCount).map SwapEvent.destroyImageView :=
      List.mem_map_of_mem _ (List.mem_range.mpr hk)
    have h1 : List.Sublist [SwapEvent.destroyImageView k]
        ((List.range oldCount).map SwapEvent.destroyImageView) :=
      List.singleton_sublist.mpr hmem
    have h2 : List.Sublist [SwapEvent.destroyOldSwapchain h]
        (SwapEvent.destroyOldSwapchain h ::
          (SwapEvent.getSwapchainImages ::
            (List.range newCount).map SwapEvent.createImageView)) :=
      List.Sublist.cons₂ _ (List.nil_sublist _)
    have := List.Sublist.append h1 h2
    simpa using this
  · intro h oldCount newChain newCount
    simp only [createTrace, List.cons_append, List.nil_append]
    refine List.Sublist.cons₂ _ ?_
    apply List.singleton_sublist.mpr
    simp
  · intro oldCount newChain newCount e he
    simp only [createTrace, List.cons_append, List.nil_append, List.mem_cons,
      List.mem_append, List.mem_map, List.mem_range] at he
    rcases he with rfl | rfl | ⟨i, _, rfl⟩ <;> exact ⟨fun k => by simp, fun h => by simp⟩

/-- Witness for `swapchain_teardown_ordering` at a concrete recreation:
old handle 5 with 2 old views, new handle 9 with 3 new images. -/
theorem swapchain_teardown_ordering_witness :
    List.Sublist
      [SwapEvent.createSwapchain 9 (some 5),
       SwapEvent.destroyImageView 1,
       SwapEvent.destroyOldSwapchain 5]
      (createTrace (some 5) 2 9 3) :=
  swapchain_teardown_ordering.1 5 2 9 3 1 (by decide)

/-- C4 — when the surface reports the sentinel extent (all bits set in both
components) the resolved extent is the caller-requested size and the output
parameters are unchanged; when the surface reports a concrete extent
(neither component is the sentinel) the resolved extent is `currentExtent`
regardless of the caller-requested values and the output parameters are
overwritten to match. -/
theorem resolve_extent_sentinel_and_concrete :
    (∀ (ce : Extent2D) (w h : Nat),
      ce.width = extentSentinel → ce.height = extentSentinel →
      resolveExtent ce w h = (⟨w, h⟩, w, h)) ∧
    (∀ (ce : Extent2D) (w h : Nat),
      ce.width ≠ extentSentinel → ce.height ≠ extentSentinel →
      resolveExtent ce w h = (ce, ce.width, ce.height)) := by
  constructor
  · intro ce w h hw _
    simp [resolveExtent, hw]
  · intro ce w h hw _
    simp [resolveExtent, hw]

/-- Witness for `resolve_extent_sentinel_and_concrete`: the sentinel report
keeps the caller's 800x600, a concrete 1280x720 report overrides the
caller's 800x600. -/
theorem resolve_extent_sentinel_and_concrete_witness :
    resolveExtent ⟨extentSentinel, extentSentinel⟩ 800 600 = (⟨800, 600⟩, 800, 600) ∧
    resolveExtent ⟨1280, 720⟩ 800 600 = (⟨1280, 720⟩, 1280, 720) :=
  ⟨resolve_extent_sentinel_and_concrete.1 ⟨extentSentinel, extentSentinel⟩ 800 600 rfl rfl,
   resolve_extent_sentinel_and_concrete.2 ⟨1280, 720⟩ 800 600 (by decide) (by decide)⟩

/-- C5 — `DeviceManager_Vulkan::render` never advances `currentFrame`:
driving 5 frames through the loop visits slots 0,0,0,0,0, not the
0,1,0,1,0 sequence that the `(slotIndex + 1) mod K` rule of the
specification produces. -/
theorem frame_slot_index_never_advances :
    slotsVisited renderNextFrame 0 5 = [0, 0, 0, 0, 0] ∧
    slotsVisited referenceNextFrame 0 5 = [0, 1, 0, 1, 0] ∧
    slotsVisited renderNextFrame 0 5 ≠ slotsVisited referenceNextFrame 0 5 := by
  refine ⟨rfl, rfl, by decide⟩

lemma runFenceOps_append (a b : List FrameOp) (f : List Bool) :
    runFenceOps (a ++ b) f = (runFenceOps a f).bind (runFenceOps b) := by
  induction a generalizing f with
  | nil => simp [runFenceOps]
  | cons op rest ih =>
    cases op with
    | waitFence s =>
      by_cases hc : f.getD s false = true
      · simp only [List.cons_append, runFenceOps, if_pos hc]
        exact ih f
      · simp only [List.cons_append, runFenceOps, if_neg hc, Option.none_bind]
    | acquireImage s => simp [runFenceOps, ih]
    | resetFence s => simp [runFenceOps, ih]
    | submit s => simp [runFenceOps, ih]
    | present s => simp [runFenceOps, ih]

lemma runFenceOps_renderTrace_zero :
    runFenceOps (renderTrace 0) initialFences = some initialFences := by
  decide

lemma frameLoopTrace_no_deadlock (n : Nat) :
    runFenceOps (frameLoopTrace 0 n) initialFences = some initialFences := by
  induction n with
  | zero => rfl
  | succ n ih =>
    have hstep : frameLoopTrace 0 (n + 1)
        = renderTrace 0 ++ frameLoopTrace 0 n := rfl
    rw [hstep, runFenceOps_append, runFenceOps_renderTrace_zero]
    exact ih

/-- C6 — every per-slot fence is created in the signaled state (the
creation flags carry the signaled bit), within each `render` invocation the
fence is reset only after the host-wait on it (wait strictly precedes reset
in the call trace), and running any number of frames of the loop against an
immediately-signaling backend never reaches a wait on an unsignaled fence —
in particular the first wait on each slot used by the loop finds its fence
signaled. -/
theorem fence_signaled_and_reset_after_wait :
    (∀ i, i < MAX_CONCURRENT_FRAMES → initialFences.getD i false = true) ∧
    (∀ cf, List.Sublist [FrameOp.waitFence cf, FrameOp.resetFence cf] (renderTrace cf)) ∧
    (∀ n, runFenceOps (frameLoopTrace 0 n) initialFences = some initialFences) := by
  refine ⟨?_, ?_, frameLoopTrace_no_deadlock⟩
  · intro i hi
    have h2 : i < 2 := hi
    interval_cases i <;> decide
  · intro cf
    refine List.Sublist.cons₂ _ ?_
    refine List.Sublist.cons _ ?_
    refine List.Sublist.cons₂ _ ?_
    exact List.nil_sublist _

/-- Witness for `fence_signaled_and_reset_after_wait`: slot 0's fence is
signaled at creation. -/
theorem fence_signaled_and_reset_after_wait_witness :
    initialFences.getD 0 false = true :=
  fence_signaled_and_reset_after_wait.1 0 (by decide)

lemma and_compute_bit_eq_self {flags : Nat}
    (h : flags &&& VK_QUEUE_COMPUTE_BIT = flags) :
    flags = 0 ∨ flags = VK_QUEUE_COMPUTE_BIT := by
  have hle : flags ≤ 2 := by
    calc flags = flags &&& VK_QUEUE_COMPUTE_BIT := h.symm
    _ ≤ 2 := Nat.and_le_right
  interval_cases flags
  · exact Or.inl rfl
  · exact absurd h (by decide)
  · exact Or.inr rfl

lemma and_transfer_bit_eq_self {flags : Nat}
    (h : flags &&& VK_QUEUE_TRANSFER_BIT = flags) :
    flags = 0 ∨ flags = VK_QUEUE_TRANSFER_BIT := by
  have hle : flags ≤ 4 := by
    calc flags = flags &&& VK_QUEUE_TRANSFER_BIT := h.symm
    _ ≤ 4 := Nat.and_le_right
  interval_cases flags
  · exact Or.inl rfl
  · exact absurd h (by decide)
  · exact absurd h (by decide)
  · exact absurd h (by decide)
  · exact Or.inr rfl

/-- C8 — for every nonempty requested flag set, `getQueueFamilyIndex`
resolves exactly as the specified tie-break order: dedicated
COMPUTE-without-GRAPHICS family for a compute-only request, dedicated
TRANSFER-without-GRAPHICS-and-COMPUTE family for a transfer-only request,
otherwise the first family whose flags are a superset of the request, and
an error (`none`, the C++ `throw`) when no family matches. -/
theorem get_queue_family_index_matches_reference :
    ∀ (table : List Nat) (queueFlags : Nat), queueFlags ≠ 0 →
      getQueueFamilyIndex table queueFlags
        = referenceQueueFamilyIndex table queueFlags := by
  intro table flags hne
  by_cases hc : flags &&& VK_QUEUE_COMPUTE_BIT = flags
  · have hcf : flags = VK_QUEUE_COMPUTE_BIT :=
      (and_compute_bit_eq_self hc).resolve_left hne
    subst hcf
    have e1 : VK_QUEUE_COMPUTE_BIT &&& VK_QUEUE_COMPUTE_BIT
        = VK_QUEUE_COMPUTE_BIT := by decide
    have e2 : ¬ (VK_QUEUE_COMPUTE_BIT &&& VK_QUEUE_TRANSFER_BIT
        = VK_QUEUE_COMPUTE_BIT) := by decide
    simp only [getQueueFamilyIndex, referenceQueueFamilyIndex, if_pos e1,
      if_neg e2, if_pos rfl]
    cases hd : dedicatedComputeIdx table <;> simp
  · by_cases ht : flags &&& VK_QUEUE_TRANSFER_BIT = flags
    · have htf : flags = VK_QUEUE_TRANSFER_BIT :=
        (and_transfer_bit_eq_self ht).resolve_left hne
      subst htf
      have e1 : ¬ (VK_QUEUE_TRANSFER_BIT &&& VK_QUEUE_COMPUTE_BIT
          = VK_QUEUE_TRANSFER_BIT) := by decide
      have e2 : VK_QUEUE_TRANSFER_BIT &&& VK_QUEUE_TRANSFER_BIT
          = VK_QUEUE_TRANSFER_BIT := by decide
      have e3 : VK_QUEUE_TRANSFER_BIT ≠ VK_QUEUE_COMPUTE_BIT := by decide
      simp only [getQueueFamilyIndex, referenceQueueFamilyIndex, if_neg e1,
        if_pos e2, if_neg e3, if_pos rfl]
      cases hd : dedicatedTransferIdx table <;> simp
    · have hfc : flags ≠ VK_QUEUE_COMPUTE_BIT := by
        intro h; exact hc (by subst h; decide)
      have hft : flags ≠ VK_QUEUE_TRANSFER_BIT := by
        intro h; exact ht (by subst h; decide)
      simp only [getQueueFamilyIndex, referenceQueueFamilyIndex, if_neg hc,
        if_neg ht, if_neg hfc, if_neg hft]

/-- Witness for `get_queue_family_index_matches_reference`: a compute-only
request on a table whose second family is compute-only resolves to the
dedicated family on both sides. -/
theorem get_queue_family_index_matches_reference_witness :
    getQueueFamilyIndex [7, VK_QUEUE_COMPUTE_BIT] VK_QUEUE_COMPUTE_BIT
      = referenceQueueFamilyIndex [7, VK_QUEUE_COMPUTE_BIT] VK_QUEUE_COMPUTE_BIT :=
  get_queue_family_index_matches_reference [7, VK_QUEUE_COMPUTE_BIT]
    VK_QUEUE_COMPUTE_BIT (by decide)

lemma createLogicalDeviceQueues_shape (table : List Nat) (requested : Nat)
    (idx : QueueFamilyIndices) (entries : List QueueCreateEntry)
    (hg : requested &&& VK_QUEUE_GRAPHICS_BIT ≠ 0)
    (hEq : createLogicalDeviceQueues table requested = some (idx, entries)) :
    entries = dedupEntries idx := by
  unfold createLogicalDeviceQueues graphicsStage at hEq
  rw [if_pos hg] at hEq
  cases hgq : getQueueFamilyIndex table VK_QUEUE_GRAPHICS_BIT with
  | none => rw [hgq] at hEq; simp at hEq
  | some g =>
    rw [hgq] at hEq
    simp only [Option.map_some', Option.some_bind] at hEq
    unfold computeStage at hEq
    by_cases hcr : requested &&& VK_QUEUE_COMPUTE_BIT ≠ 0
    · rw [if_pos hcr] at hEq
      cases hcq : getQueueFamilyIndex table VK_QUEUE_COMPUTE_BIT with
      | none => rw [hcq] at hEq; simp at hEq
      | some c =>
        rw [hcq] at hEq
        simp only [Option.map_some', Option.some_bind] at hEq
        unfold transferStage at hEq
        by_cases htr : requested &&& VK_QUEUE_TRANSFER_BIT ≠ 0
        · rw [if_pos htr] at hEq
          cases htq : getQueueFamilyIndex table VK_QUEUE_TRANSFER_BIT with
          | none => rw [htq] at hEq; simp at hEq
          | some t =>
            rw [htq] at hEq
            simp only [Option.map_some', Option.some_bind, Option.some.injEq,
              Prod.mk.injEq] at hEq
            obtain ⟨hidx, hent⟩ := hEq
            subst hidx
            simp [← hent, dedupEntries]
        · rw [if_neg htr] at hEq
          simp only [Option.some_bind, Option.some.injEq, Prod.mk.injEq] at hEq
          obtain ⟨hidx, hent⟩ := hEq
          subst hidx
          simp [← hent, dedupEntries]
    · rw [if_neg hcr] at hEq
      simp only [Option.some_bind] at hEq
      unfold transferStage at hEq
      by_cases htr : requested &&& VK_QUEUE_TRANSFER_BIT ≠ 0
      · rw [if_pos htr] at hEq
        cases htq : getQueueFamilyIndex table VK_QUEUE_TRANSFER_BIT with
        | none => rw [htq] at hEq; simp at hEq
        | some t =>
          rw [htq] at hEq
          simp only [Option.map_some', Option.some_bind, Option.some.injEq,
            Prod.mk.injEq] at hEq
          obtain ⟨hidx, hent⟩ := hEq
          subst hidx
          simp [← hent, dedupEntries]
      · rw [if_neg htr] at hEq
        simp only [Option.some_bind, Option.some.injEq, Prod.mk.injEq] at hEq
        obtain ⟨hidx, hent⟩ := hEq
        subst hidx
        simp [← hent, dedupEntries]

lemma dedupEntries_priority (idx : QueueFamilyIndices) :
    ∀ e ∈ dedupEntries idx, e.priority = defaultQueuePriority := by
  intro e he
  simp only [dedupEntries, List.mem_cons, List.mem_append] at he
  rcases he with rfl | he | he
  · rfl
  · by_cases hcg : idx.compute ≠ idx.graphics
    · rw [if_pos hcg] at he; simp only [List.mem_singleton] at he; subst he; rfl
    · rw [if_neg hcg] at he; simp at he
  · by_cases htg : idx.transfer ≠ idx.graphics ∧ idx.transfer ≠ idx.compute
    · rw [if_pos htg] at he; simp only [List.mem_singleton] at he; subst he; rfl
    · rw [if_neg htg] at he; simp at he

lemma dedupEntries_nodup (idx : QueueFamilyIndices) :
    ((dedupEntries idx).map QueueCreateEntry.queueFamilyIndex).Nodup := by
  obtain ⟨g, c, t⟩ := idx
  by_cases hc : c ≠ g <;> by_cases ht : t ≠ g ∧ t ≠ c <;>
    simp [dedupEntries, mkQueueEntry, hc, ht] <;> omega

lemma dedupEntries_mem (idx : QueueFamilyIndices) (x : Nat) :
    x ∈ (dedupEntries idx).map QueueCreateEntry.queueFamilyIndex ↔
      (x = idx.graphics ∨ x = idx.compute ∨ x = idx.transfer) := by
  obtain ⟨g, c, t⟩ := idx
  by_cases hc : c ≠ g <;> by_cases ht : t ≠ g ∧ t ≠ c <;>
    simp [dedupEntries, mkQueueEntry, hc, ht] <;> omega

/-- C7 (amended) — whenever graphics is among the requested queue types and
`createLogicalDevice`'s queue setup succeeds, the emitted queue-create
entries carry pairwise distinct family indices, cover exactly the distinct
resolved {graphics, compute, transfer} indices, and all carry the default
queue priority, which is 0.0 (not 1.0); on a device exposing a single
family with graphics, compute and transfer bits all set, both the part_006
`createLogicalDevice` and the part_003 `VulkanDevice` constructor emit
exactly one entry. -/
theorem queue_entries_dedup_at_priority_zero :
    (∀ (table : List Nat) (requested : Nat) (idx : QueueFamilyIndices)
        (entries : List QueueCreateEntry),
      requested &&& VK_QUEUE_GRAPHICS_BIT ≠ 0 →
      createLogicalDeviceQueues table requested = some (idx, entries) →
      ((entries.map QueueCreateEntry.queueFamilyIndex).Nodup ∧
       (∀ e ∈ entries, e.priority = defaultQueuePriority) ∧
       (∀ x, x ∈ entries.map QueueCreateEntry.queueFamilyIndex ↔
          (x = idx.graphics ∨ x = idx.compute ∨ x = idx.transfer)))) ∧
    createLogicalDeviceQueues [7] 7 = some (⟨0, 0, 0⟩, [mkQueueEntry 0]) ∧
    vulkanDeviceQueues_part003 [7] = some (⟨0, 0, 0⟩, [mkQueueEntry 0]) ∧
    defaultQueuePriority = 0 := by
  refine ⟨?_, rfl, rfl, rfl⟩
  intro table requested idx entries hg hEq
  have hshape := createLogicalDeviceQueues_shape table requested idx entries hg hEq
  subst hshape
  exact ⟨dedupEntries_nodup idx, dedupEntries_priority idx,
    fun x => dedupEntries_mem idx x⟩

/-- Counterexample for C7 as stated: on a device whose family 0 carries
graphics, compute and transfer and whose family 1 is compute-only, the
part_003 `VulkanDevice` constructor (its compute and transfer blocks are
written out twice) emits the compute family's entry twice, and every entry
carries priority 0.0, not 1.0. -/
theorem queue_entries_claim_counterexample :
    vulkanDeviceQueues_part003 [7, VK_QUEUE_COMPUTE_BIT]
      = some (⟨0, 1, 0⟩, [mkQueueEntry 0, mkQueueEntry 1, mkQueueEntry 1]) ∧
    ¬ (([mkQueueEntry 0, mkQueueEntry 1, mkQueueEntry 1].map
          QueueCreateEntry.queueFamilyIndex).Nodup) ∧
    (mkQueueEntry 1).priority ≠ 1 := by
  refine ⟨rfl, by decide, ?_⟩
  intro h
  exact absurd h (by norm_num [mkQueueEntry, defaultQueuePriority])

/-- Witness for `queue_entries_dedup_at_priority_zero`: requesting graphics
and compute on a table with a graphics-only family 0 and a compute-only
family 1 yields the deduplicated entries for indices 0 and 1 at priority
0. -/
theorem queue_entries_dedup_at_priority_zero_witness :
    ([mkQueueEntry 0, mkQueueEntry 1].map QueueCreateEntry.queueFamilyIndex).Nodup ∧
    (∀ e ∈ [mkQueueEntry 0, mkQueueEntry 1], e.priority = defaultQueuePriority) :=
  let h := queue_entries_dedup_at_priority_zero.1
    [VK_QUEUE_GRAPHICS_BIT, VK_QUEUE_COMPUTE_BIT] 3 ⟨0, 1, 0⟩
    [mkQueueEntry 0, mkQueueEntry 1] (by decide) rfl
  ⟨h.1, h.2.1⟩

/-- C9 — a requested device extension missing from the supported list
produces a warning in the `VulkanDevice` constructor's trace while
`vkCreateDevice` is still invoked; when device creation itself succeeds the
constructor even proceeds to create the command pool.  The absence never
aborts creation. -/
theorem missing_device_extension_nonfatal :
    ∀ (supported requested : List String) (ext : String) (ok : Bool),
      ext ∈ requested → ext ∉ supported →
      (DevCreateEvent.warnMissingExtension ext
          ∈ vulkanDeviceInitTrace supported requested ok ∧
       DevCreateEvent.createDevice ∈ vulkanDeviceInitTrace supported requested ok ∧
       (ok = true →
        DevCreateEvent.createCommandPool ∈ vulkanDeviceInitTrace supported requested ok)) := by
  intro s r ext ok hmem hns
  refine ⟨?_, ?_, ?_⟩
  · simp only [vulkanDeviceInitTrace, List.append_assoc, List.mem_append]
    left
    exact List.mem_filterMap.mpr ⟨ext, hmem, by rw [if_neg hns]⟩
  · simp [vulkanDeviceInitTrace]
  · intro hok
    subst hok
    simp [vulkanDeviceInitTrace]

/-- Witness for `missing_device_extension_nonfatal`: requesting
VK_KHR_swapchain on a device supporting no extensions warns and still
creates the device and command pool. -/
theorem missing_device_extension_nonfatal_witness :
    DevCreateEvent.warnMissingExtension "VK_KHR_swapchain"
      ∈ vulkanDeviceInitTrace [] ["VK_KHR_swapchain"] true ∧
    DevCreateEvent.createDevice ∈ vulkanDeviceInitTrace [] ["VK_KHR_swapchain"] true ∧
    DevCreateEvent.createCommandPool ∈ vulkanDeviceInitTrace [] ["VK_KHR_swapchain"] true := by
  have h := missing_device_extension_nonfatal [] ["VK_KHR_swapchain"]
    "VK_KHR_swapchain" true (by simp) (by simp)
  exact ⟨h.1, h.2.1, h.2.2 rfl⟩

/-- C10 — on a device whose family 0 has graphics without present support
and whose family 1 supports present without graphics (so a graphics family
exists but no single family supports both), `initSurface` does not throw
the separate-queues error: the mangled fallback loop (lines 127-139)
assigns index 0 as the present queue without consulting present support,
the two indices coincide, and `queueNodeIndex` is set to family 0 even
though that family does not support presentation. -/
theorem init_surface_separate_queue_error_bypassed :
    initSurface [⟨VK_QUEUE_GRAPHICS_BIT, false⟩, ⟨0, true⟩]
      = InitSurfaceResult.ok 0 ∧
    initSurface [⟨VK_QUEUE_GRAPHICS_BIT, false⟩, ⟨0, true⟩]
      ≠ InitSurfaceResult.errSeparateQueues ∧
    (∃ f ∈ [QueueFamily.mk VK_QUEUE_GRAPHICS_BIT false, QueueFamily.mk 0 true],
      f.queueFlags &&& VK_QUEUE_GRAPHICS_BIT ≠ 0) ∧
    (∀ f ∈ [QueueFamily.mk VK_QUEUE_GRAPHICS_BIT false, QueueFamily.mk 0 true],
      ¬ (f.queueFlags &&& VK_QUEUE_GRAPHICS_BIT ≠ 0 ∧ f.supportsPresent = true)) ∧
    (QueueFamily.mk VK_QUEUE_GRAPHICS_BIT false).supportsPresent = false := by
  refine ⟨rfl, by decide, ?_, by decide, rfl⟩
  exact ⟨⟨VK_QUEUE_GRAPHICS_BIT, false⟩, by simp, by decide⟩

end DonutExamples
